import Mathlib

/-!
Verification development for the client-side orchestration core of a
stepped-execution visualizer (React frontend).  The embedding below is a
shallow translation of three source files:

* `App.js` (the session controller): component state, the socket event
  handlers (`code_parsed`, `execution_started`, `execution_step`,
  `execution_completed`, `execution_error`, the legacy aliases
  `execution_update` / `execution_complete`), and the user commands
  `handleRunCode`, `handleStepCode`, `handleResetCode`,
  `handleAnimationComplete`.
* `ValueAnimationOverlay.js` (the flight-animation controller, the variant
  carrying the `processedAnimations` dedup set): the effect that reacts to a
  new `animationData` prop, the dedup key, the `global.`-prefixed position
  lookup, entry creation and the timed removal.
* `VariableViewer.js`: the per-variable visibility store
  (`hideVariable` / `showVariable`) and the per-element iteration-context
  classification inside `renderVariableValue` (single-pointer `find`, the
  multi-pointer / slice-range scan, and the CSS-class assembly).

JavaScript values are modelled by the inductive `Val`.  Field access,
truthiness, `||` defaulting and optional chaining are modelled explicitly;
strict equality on the primitives the code compares (and equality of the
`JSON.stringify` dedup key) is structural equality `Val.beq`.  No float
arithmetic occurs on the translated paths; geometry uses `Rat`, exact for
the halvings the code performs.  React semantics used: a `useEffect` re-runs
exactly when one of its dependencies changes, state setters replace
component state, and a child component keeps its own state when the parent
re-renders.
-/

/-- A JavaScript value as it occurs in the translated code: null, booleans,
integers, strings, arrays and plain objects.  An absent field (undefined) is
represented by `Option.none` at the access site. -/
inductive Val where
  | vnull : Val
  | vbool : Bool → Val
  | vint : Int → Val
  | vstr : String → Val
  | varr : List Val → Val
  | vobj : List (String × Val) → Val

mutual
/-- Structural equality of values: JavaScript strict equality on the
primitives the code compares, and the equality induced by comparing
`JSON.stringify` images on the dedup-key objects. -/
def Val.beq : Val → Val → Bool
  | .vnull, .vnull => true
  | .vbool a, .vbool b => a == b
  | .vint a, .vint b => a == b
  | .vstr a, .vstr b => a == b
  | .varr xs, .varr ys => Val.beqList xs ys
  | .vobj xs, .vobj ys => Val.beqFields xs ys
  | _, _ => false

/-- Elementwise equality of value arrays. -/
def Val.beqList : List Val → List Val → Bool
  | [], [] => true
  | x :: xs, y :: ys => Val.beq x y && Val.beqList xs ys
  | _, _ => false

/-- Fieldwise equality of object field lists (order-sensitive, as
`JSON.stringify` is). -/
def Val.beqFields : List (String × Val) → List (String × Val) → Bool
  | [], [] => true
  | (k, v) :: xs, (l, w) :: ys => k == l && Val.beq v w && Val.beqFields xs ys
  | _, _ => false
end

instance : BEq Val := ⟨Val.beq⟩

mutual
theorem Val.beq_refl : (a : Val) → Val.beq a a = true
  | .vnull => rfl
  | .vbool b => by simp [Val.beq]
  | .vint n => by simp [Val.beq]
  | .vstr s => by simp [Val.beq]
  | .varr xs => Val.beqList_refl xs
  | .vobj fs => Val.beqFields_refl fs

theorem Val.beqList_refl : (xs : List Val) → Val.beqList xs xs = true
  | [] => rfl
  | x :: xs => by simp [Val.beqList, Val.beq_refl x, Val.beqList_refl xs]

theorem Val.beqFields_refl : (fs : List (String × Val)) → Val.beqFields fs fs = true
  | [] => rfl
  | (k, v) :: fs => by simp [Val.beqFields, Val.beq_refl v, Val.beqFields_refl fs]
end

/-- JavaScript truthiness of a present value: null, false, 0 and the empty
string are falsy; arrays and objects are always truthy. -/
def Val.isTruthy : Val → Bool
  | .vnull => false
  | .vbool b => b
  | .vint n => n != 0
  | .vstr s => s != ""
  | .varr _ => true
  | .vobj _ => true

/-- Property access `v.k`: a lookup on an object, undefined (`none`) on every
other value (matching both `x?.k` short-circuiting on null/undefined and
property access on a primitive yielding undefined for the fields read
here). -/
def Val.get : Val → String → Option Val
  | .vobj fields, k => fields.lookup k
  | _, _ => none

/-- Truthiness of a possibly-undefined value (`undefined` is falsy). -/
def jsFieldTruthy : Option Val → Bool
  | some v => v.isTruthy
  | none => false

/-- The JavaScript defaulting idiom `x || d` applied to a possibly-undefined
`x`: the value when truthy, otherwise the default. -/
def jsOrUndef : Option Val → Val → Val
  | some v, d => if v.isTruthy then v else d
  | none, d => d

/-- Strict equality `===` lifted to possibly-null-or-undefined operands as
the code compares `prevLine` with `data.line`. -/
def optValBeq : Option Val → Option Val → Bool
  | some a, some b => Val.beq a b
  | none, none => true
  | _, _ => false

mutual
/-- JavaScript string coercion as used in the template literals of the
translated code. -/
def Val.jsToString : Val → String
  | .vnull => "null"
  | .vbool b => cond b "true" "false"
  | .vint n => toString n
  | .vstr s => s
  | .varr xs => Val.jsToStringList xs
  | .vobj _ => "[object Object]"

/-- Array string coercion: elements joined with commas. -/
def Val.jsToStringList : List Val → String
  | [] => ""
  | [x] => Val.jsToString x
  | x :: y :: xs => Val.jsToString x ++ "," ++ Val.jsToStringList (y :: xs)
end

/-- Template interpolation of a possibly-undefined value. -/
def jsFieldToString : Option Val → String
  | some v => v.jsToString
  | none => "undefined"

/-- `String.prototype.trim`: strip leading and trailing whitespace (the
whitespace characters relevant to the guards modelled here). -/
def jsTrim (s : String) : String :=
  String.mk (((s.data.dropWhile Char.isWhitespace).reverse.dropWhile Char.isWhitespace).reverse)

/-- One measured variable-card rectangle, as `VariableViewer` publishes it
(position relative to the tracking container plus absolute viewport
coordinates).  Coordinates are exact rationals. -/
structure Pos where
  top : Rat
  left : Rat
  width : Rat
  height : Rat
  centerX : Rat
  centerY : Rat
  absoluteX : Rat
  absoluteY : Rat
deriving DecidableEq

/-- The `App` component state (the execution-session controller).
`variablesMap` is the source's `variables` state (the word is reserved in
Lean); `executionState` is the JS string state variable (`idle`, `running`,
`paused`, `error`; the legacy `execution_update` handler stores an arbitrary
payload value, so the field keeps type `Val`).  `currentLine` and
`animationData` are `none` when the JS state is null. -/
structure AppState where
  code : String
  variablesMap : Val
  socket : Bool
  executionState : Val
  isStepMode : Bool
  currentLine : Option Val
  variablePositions : List (String × Pos)
  animationData : Option Val
  iterationStack : Val

/-- An inbound socket event together with its payload, one constructor per
`socketConnection.on` registration that touches session state
(`execution_control` only logs and is the identity). -/
inductive Event where
  | code_parsed : Val → Event
  | execution_started : Val → Event
  | execution_step : Val → Event
  | execution_completed : Val → Event
  | execution_error : Val → Event
  | execution_control : Val → Event
  | execution_update : Val → Event
  | execution_complete : Val → Event

/-- The functional updater both `execution_started` and `execution_step`
pass to `setExecutionState`: keep `paused`, otherwise go to `running`. -/
def keepPausedElseRunning (current : Val) : Val :=
  if Val.beq current (Val.vstr "paused") then Val.vstr "paused" else Val.vstr "running"

/-- The `setCurrentLine` updater of the `execution_step` handler: update only
when the payload carries a truthy `line` that differs from the previous one
(returning the previous value otherwise). -/
def stepCurrentLine (prevLine : Option Val) (data : Val) : Option Val :=
  match data.get "line" with
  | some l =>
      if l.isTruthy then
        (if optValBeq prevLine (some l) then prevLine else some l)
      else prevLine
  | none => prevLine

/-- The inbound-event dispatch of `App.js`: each socket handler as a state
transformer over the component state. -/
def handleEvent (s : AppState) : Event → AppState
  | .code_parsed data =>
      if !(jsFieldTruthy (data.get "success")) then
        { s with executionState := Val.vstr "error" }
      else s
  | .execution_started _ =>
      { s with executionState := keepPausedElseRunning s.executionState }
  | .execution_step data =>
      { s with
        variablesMap := jsOrUndef (data.get "variables") (Val.vobj []),
        animationData :=
          match data.get "animation" with
          | some a => if a.isTruthy then some a else s.animationData
          | none => s.animationData,
        iterationStack :=
          match data.get "iteration_stack" with
          | some v => jsOrUndef (some v) (Val.varr [])
          | none => s.iterationStack,
        currentLine := stepCurrentLine s.currentLine data,
        executionState := keepPausedElseRunning s.executionState }
  | .execution_completed data =>
      { s with
        variablesMap :=
          jsOrUndef ((data.get "result").bind (fun r => r.get "variables")) (Val.vobj []),
        executionState := Val.vstr "idle",
        isStepMode := false,
        currentLine := none }
  | .execution_error _ =>
      { s with
        executionState := Val.vstr "error",
        isStepMode := false,
        currentLine := none }
  | .execution_control _ => s
  | .execution_update data =>
      { s with
        variablesMap := jsOrUndef (data.get "variables") (Val.vobj []),
        executionState := jsOrUndef (data.get "status") (Val.vstr "idle") }
  | .execution_complete data =>
      { s with
        variablesMap := jsOrUndef (data.get "variables") (Val.vobj []),
        executionState := Val.vstr "idle" }

/-- An outbound request or socket emission issued by a user-command
handler. -/
inductive Emission where
  | httpParse : String → String → Emission
  | emitParseCode : String → String → Bool → Emission
  | emitStepNext : Emission
  | emitReset : Emission
deriving DecidableEq

/-- `handleRunCode` (synchronous part): guarded only by non-empty trimmed
source text; sets continuous-run state and issues the HTTP parse request.
The asynchronous response continuation (which can set `error`) is outside
the transition modelled here; it performs no socket emission either. -/
def handleRunCode (s : AppState) : AppState × List Emission :=
  if jsTrim s.code = "" then (s, [])
  else
    ({ s with executionState := Val.vstr "running", isStepMode := false },
     [Emission.httpParse s.code ""])

/-- `handleStepCode`: guarded by non-empty trimmed source text and by the
presence of the socket; from `idle` it arms step mode and emits `parse_code`
with the step flag, from `paused` it emits `step_next`, in any other state
it does nothing. -/
def handleStepCode (s : AppState) : AppState × List Emission :=
  if jsTrim s.code = "" then (s, [])
  else if !s.socket then (s, [])
  else if Val.beq s.executionState (Val.vstr "idle") then
    ({ s with executionState := Val.vstr "paused", isStepMode := true },
     [Emission.emitParseCode s.code "" true])
  else if Val.beq s.executionState (Val.vstr "paused") then
    (s, [Emission.emitStepNext])
  else (s, [])

/-- `handleResetCode`: clears the snapshot, returns to `idle`, clears the
step flag and the current line, and emits `reset` when the socket exists.
It touches no other state field (in particular not `animationData`). -/
def handleResetCode (s : AppState) : AppState × List Emission :=
  ({ s with
      variablesMap := Val.vobj [],
      executionState := Val.vstr "idle",
      isStepMode := false,
      currentLine := none },
   if s.socket then [Emission.emitReset] else [])

/-- `handleAnimationComplete`: the owner clears the animation descriptor. -/
def handleAnimationComplete (s : AppState) : AppState :=
  { s with animationData := none }

/-- The dedup identity of an animation event: the six fields the overlay
serializes with `JSON.stringify` into `animationKey`.  Two events collide
exactly when the six (possibly absent) fields agree. -/
structure DedupKey where
  line : Option Val
  operation : Option Val
  source_variable : Option Val
  target_variable : Option Val
  source_value : Option Val
  step_count : Option Val

/-- Equality of dedup keys (equality of the stringified key objects). -/
def DedupKey.beq (a b : DedupKey) : Bool :=
  optValBeq a.line b.line && optValBeq a.operation b.operation &&
  optValBeq a.source_variable b.source_variable &&
  optValBeq a.target_variable b.target_variable &&
  optValBeq a.source_value b.source_value && optValBeq a.step_count b.step_count

instance : BEq DedupKey := ⟨DedupKey.beq⟩

/-- The dedup key computed from an `animationData` object. -/
def dedupKey (animationData : Val) : DedupKey :=
  { line := animationData.get "line",
    operation := animationData.get "operation",
    source_variable := animationData.get "source_variable",
    target_variable := animationData.get "target_variable",
    source_value := animationData.get "source_value",
    step_count := animationData.get "step_count" }

/-- The identifier under which the overlay looks up the source variable:
the template literal `global.` followed by `animationData.source_variable`. -/
def sourceVarId (animationData : Val) : String :=
  "global." ++ jsFieldToString (animationData.get "source_variable")

/-- The identifier under which the overlay looks up the target variable. -/
def targetVarId (animationData : Val) : String :=
  "global." ++ jsFieldToString (animationData.get "target_variable")

/-- One in-flight animation entry as the overlay constructs it. -/
structure AnimEntry where
  id : Nat
  value : Option Val
  startX : Rat
  startY : Rat
  endX : Rat
  endY : Rat
  operation : Option Val
  animationType : Option Val
  timestamp : Nat

/-- The overlay component's mutable state: the rendered active entries, the
monotonic id counter and the `processedAnimations` dedup set (a JS `Set`,
modelled as a duplicate-free insertion-ordered list). -/
structure OverlayState where
  activeAnimations : List AnimEntry
  animationIdRef : Nat
  processedAnimations : List DedupKey

/-- The duration after which a created entry is scheduled for removal. -/
def animationDuration : Nat := 1200

/-- The overlay's `useEffect` body, run whenever the `animationData` prop
changes: a null descriptor clears the dedup set; otherwise the dedup key is
computed and, if already processed, the call is a no-op; else the key is
recorded, the two `global.`-prefixed positions are resolved, and on success
an entry is appended (absolute center coordinates) with its removal
scheduled after `animationDuration` (the returned id); on a missing
position the event is logged and skipped.  `now` is `Date.now()`. -/
def overlayEffect (animationData : Option Val) (variablePositions : List (String × Pos))
    (now : Nat) (s : OverlayState) : OverlayState × Option Nat :=
  match animationData with
  | none => ({ s with processedAnimations := [] }, none)
  | some ad =>
      let animationKey := dedupKey ad
      if s.processedAnimations.contains animationKey then (s, none)
      else
        let s1 : OverlayState :=
          { s with processedAnimations := s.processedAnimations ++ [animationKey] }
        match variablePositions.lookup (sourceVarId ad),
              variablePositions.lookup (targetVarId ad) with
        | some sourcePos, some targetPos =>
            let animationId := s1.animationIdRef
            let newAnimation : AnimEntry :=
              { id := animationId,
                value := ad.get "source_value",
                startX := sourcePos.absoluteX + sourcePos.width / 2,
                startY := sourcePos.absoluteY + sourcePos.height / 2,
                endX := targetPos.absoluteX + targetPos.width / 2,
                endY := targetPos.absoluteY + targetPos.height / 2,
                operation := ad.get "operation",
                animationType := ad.get "animation_type",
                timestamp := now }
            ({ s1 with
                activeAnimations := s1.activeAnimations ++ [newAnimation],
                animationIdRef := s1.animationIdRef + 1 },
             some animationId)
        | _, _ => (s1, none)

/-- The body of the scheduled removal timeout: filter the entry out of the
active set (the completion callback to the owner is modelled by
`sysAnimationComplete` below). -/
def overlayRemove (animationId : Nat) (s : OverlayState) : OverlayState :=
  { s with
    activeAnimations := s.activeAnimations.filter (fun anim => anim.id != animationId) }

/-- The `VariableViewer` component state that the claims touch: the hidden
set (insertion-ordered, duplicate-free, as a JS `Set`) and the
reveal-hidden toggle. -/
structure ViewerState where
  hiddenVariables : List String
  showHiddenVariables : Bool
deriving DecidableEq

/-- `hideVariable`: add `scope.name` to the hidden set. -/
def hideVariable (scope varName : String) (s : ViewerState) : ViewerState :=
  let varId := scope ++ "." ++ varName
  { s with
    hiddenVariables :=
      if s.hiddenVariables.contains varId then s.hiddenVariables
      else s.hiddenVariables ++ [varId] }

/-- `showVariable`: delete `scope.name` from the hidden set. -/
def showVariable (scope varName : String) (s : ViewerState) : ViewerState :=
  let varId := scope ++ "." ++ varName
  { s with hiddenVariables := s.hiddenVariables.filter (fun v => v != varId) }

/-- A `multi_indices[varName]` entry: either a multi-pointer spec (tracked
indices plus their pointer variable names) or a slice-range spec. -/
inductive MultiSpec where
  | multi_index : List Int → List String → MultiSpec
  | slice_range : Int → Int → String → String → MultiSpec
deriving DecidableEq

/-- One frame of the per-step `iteration_stack` as the classification code
reads it: `level`, `container`, `current_index`, and the optional
`multi_indices` map keyed by variable name. -/
structure IterFrame where
  level : Int
  container : String
  current_index : Int
  multi_indices : List (String × MultiSpec)
deriving DecidableEq

/-- The single-pointer lookup of `renderVariableValue`: the first frame in
stack order whose `container` is this variable, whose `current_index` is
this element index, and whose `current_index` is non-negative. -/
def findIterationInfo (iterationStack : List IterFrame) (varName : String) (index : Nat) :
    Option IterFrame :=
  iterationStack.find? (fun context =>
    context.container == varName && context.current_index == (index : Int) &&
    decide (0 ≤ context.current_index))

/-- The multi-pointer classification a single frame yields for an element. -/
structure MultiIndexInfo where
  level : Int
  pointerType : Nat
  pointerVar : Option String
  totalPointers : Nat
deriving DecidableEq

/-- The slice-range classification a single frame yields for an element. -/
structure SliceRangeInfo where
  level : Int
  startVar : String
  endVar : String
  startIndex : Int
  endIndex : Int
  isStartBoundary : Bool
  isEndBoundary : Bool
deriving DecidableEq

/-- The multi-pointer check of the scan loop body for one frame: a
`multi_index` spec for this variable whose `indices` contain the element
index (`indexOf` rank; `index_vars[rank]` may be absent). -/
def frameMatchMulti (context : IterFrame) (varName : String) (index : Nat) :
    Option MultiIndexInfo :=
  match context.multi_indices.lookup varName with
  | some (.multi_index indices index_vars) =>
      match indices.findIdx? (fun j => j == (index : Int)) with
      | some pointerIndex =>
          some { level := context.level,
                 pointerType := pointerIndex,
                 pointerVar := index_vars[pointerIndex]?,
                 totalPointers := indices.length }
      | none => none
  | _ => none

/-- The slice-range check of the scan loop body for one frame: a
`slice_range` spec for this variable with `start_index <= index < end_index`,
with the two boundary flags. -/
def frameMatchSlice (context : IterFrame) (varName : String) (index : Nat) :
    Option SliceRangeInfo :=
  match context.multi_indices.lookup varName with
  | some (.slice_range start_index end_index start_var end_var) =>
      if start_index ≤ (index : Int) ∧ (index : Int) < end_index then
        some { level := context.level,
               startVar := start_var,
               endVar := end_var,
               startIndex := start_index,
               endIndex := end_index,
               isStartBoundary := (index : Int) == start_index,
               isEndBoundary := (index : Int) == end_index - 1 }
      else none
  | _ => none

/-- The `for (let context of iterationStack)` scan: frames are visited in
stack order; the first frame producing a multi-pointer or a slice-range
match breaks the loop with that single match (a frame whose spec matches
neither lets the loop continue). -/
def scanMultiSlice (iterationStack : List IterFrame) (varName : String) (index : Nat) :
    Option MultiIndexInfo × Option SliceRangeInfo :=
  match iterationStack with
  | [] => (none, none)
  | context :: rest =>
      match frameMatchMulti context varName index with
      | some multiIndexInfo => (some multiIndexInfo, none)
      | none =>
          match frameMatchSlice context varName index with
          | some sliceRangeInfo => (none, some sliceRangeInfo)
          | none => scanMultiSlice rest varName index

/-- The classification `renderVariableValue` computes for one element of an
array (or character of a string) variable, including the CSS classes the
element is rendered with. -/
structure ElementClass where
  iterationInfo : Option IterFrame
  multiIndexInfo : Option MultiIndexInfo
  sliceRangeInfo : Option SliceRangeInfo
  isCurrentIteration : Bool
  isSliceRange : Bool
  iterationLevel : Int
  pointerType : Nat
  cssClasses : List String
deriving DecidableEq

/-- The per-element classification and CSS-class assembly of
`renderVariableValue` (identical logic for array elements and string
characters; the base class is the array one). -/
def classifyElement (iterationStack : List IterFrame) (varName : String) (index : Nat) :
    ElementClass :=
  let iterationInfo := findIterationInfo iterationStack varName index
  let scanned := scanMultiSlice iterationStack varName index
  let multiIndexInfo := scanned.1
  let sliceRangeInfo := scanned.2
  let isCurrentIteration := iterationInfo.isSome || multiIndexInfo.isSome
  let isSliceRange := sliceRangeInfo.isSome
  let iterationLevel :=
    match iterationInfo with
    | some info => info.level
    | none =>
        match multiIndexInfo with
        | some m => m.level
        | none =>
            match sliceRangeInfo with
            | some sl => sl.level
            | none => 0
  let pointerType :=
    match multiIndexInfo with
    | some m => m.pointerType
    | none => 0
  let cssClasses :=
    ["array-element"] ++
    (if isCurrentIteration then ["current-iteration", "level-" ++ toString iterationLevel]
     else []) ++
    (match multiIndexInfo with
     | some _ => ["pointer-" ++ toString pointerType]
     | none => []) ++
    (match sliceRangeInfo with
     | some sl =>
         ["slice-range"] ++ (if sl.isStartBoundary then ["slice-start"] else []) ++
         (if sl.isEndBoundary then ["slice-end"] else [])
     | none => [])
  { iterationInfo := iterationInfo,
    multiIndexInfo := multiIndexInfo,
    sliceRangeInfo := sliceRangeInfo,
    isCurrentIteration := isCurrentIteration,
    isSliceRange := isSliceRange,
    iterationLevel := iterationLevel,
    pointerType := pointerType,
    cssClasses := cssClasses }

/-- The composed client state: the `App` component, the mounted overlay and
the mounted variable viewer. -/
structure SysState where
  app : AppState
  overlay : OverlayState
  viewer : ViewerState

/-- `requestReset` at system level: `handleResetCode` runs in `App`.  It
leaves `animationData` (and the other overlay-effect dependencies)
unchanged, so the overlay effect does not re-run and the overlay state is
untouched; the viewer is a child component and keeps its state. -/
def sysReset (s : SysState) : SysState × List Emission :=
  let r := handleResetCode s.app
  ({ s with app := r.1 }, r.2)

/-- A scheduled removal firing at system level: the overlay filters the
entry out and invokes the completion callback, `handleAnimationComplete`
sets `animationData` to null; when it was previously non-null the prop
change re-runs the overlay effect, whose null branch clears the dedup
set. -/
def sysAnimationComplete (animationId : Nat) (s : SysState) : SysState :=
  let overlayAfterRemove := overlayRemove animationId s.overlay
  let appAfter := handleAnimationComplete s.app
  if s.app.animationData.isSome then
    { s with
      app := appAfter,
      overlay := (overlayEffect none appAfter.variablePositions 0 overlayAfterRemove).1 }
  else
    { s with app := appAfter, overlay := overlayAfterRemove }

theorem optValBeq_refl (v : Option Val) : optValBeq v v = true := by
  cases v <;> simp [optValBeq, Val.beq_refl]

theorem dedupKeyBeqRefl (k : DedupKey) : (k == k) = true := by
  show DedupKey.beq k k = true
  cases k
  simp [DedupKey.beq, optValBeq_refl]

theorem dedup_contains_append_self (l : List DedupKey) (k : DedupKey) :
    (l ++ [k]).contains k = true := by
  induction l with
  | nil => simp [List.contains, List.elem, dedupKeyBeqRefl k]
  | cons x xs ih =>
      simp only [List.cons_append, List.contains, List.elem] at *
      cases hkx : k == x <;> simp [hkx, ih]

/-- A concrete animation event as `execution_step` delivers one (the spec's
append scenario). -/
def demoAnimation : Val :=
  Val.vobj [("source_variable", Val.vstr "i"), ("target_variable", Val.vstr "arr"),
            ("source_value", Val.vint 1), ("operation", Val.vstr "append"),
            ("animation_type", Val.vstr "fly"), ("line", Val.vint 2), ("step_count", Val.vint 1)]

/-- A concrete measured rectangle. -/
def demoPos : Pos :=
  { top := 0, left := 0, width := 40, height := 20, centerX := 20, centerY := 10,
    absoluteX := 100, absoluteY := 50 }

/-- Positions for the two variables of `demoAnimation`, registered under the
global scope. -/
def demoPositions : List (String × Pos) := [("global.i", demoPos), ("global.arr", demoPos)]

/-- A concrete full client state mid-run: an animation descriptor is live and
its dedup key is recorded, one variable is hidden in the viewer. -/
def midRunSys : SysState :=
  { app := { code := "arr = []", variablesMap := Val.vobj [("global", Val.vobj [])],
             socket := true, executionState := Val.vstr "running", isStepMode := false,
             currentLine := some (Val.vint 2), variablePositions := demoPositions,
             animationData := some demoAnimation, iterationStack := Val.varr [] },
    overlay := { activeAnimations := [], animationIdRef := 1,
                 processedAnimations := [dedupKey demoAnimation] },
    viewer := { hiddenVariables := ["global.tmp"], showHiddenVariables := false } }

/-- Claim C1: after `requestReset` (`handleResetCode`) the snapshot is empty,
`currentLine` is null, the mode is `Idle`, the step flag is cleared and the
hidden set is unchanged — but, contrary to the claim, the dedup memory of the
flight-animation controller is NOT cleared: `handleResetCode` never sets
`animationData` to null, so the overlay effect does not re-run, the
previously-seen key stays in `processedAnimations`, and replaying the same
animation event after the reset is still skipped as a duplicate.  This
evaluates the code at the failing input `midRunSys`. -/
theorem claim1_reset_leaves_dedup_memory :
    (sysReset midRunSys).1.app.variablesMap = Val.vobj [] ∧
    (sysReset midRunSys).1.app.currentLine = none ∧
    (sysReset midRunSys).1.app.executionState = Val.vstr "idle" ∧
    (sysReset midRunSys).1.app.isStepMode = false ∧
    (sysReset midRunSys).2 = [Emission.emitReset] ∧
    (sysReset midRunSys).1.viewer.hiddenVariables = midRunSys.viewer.hiddenVariables ∧
    (sysReset midRunSys).1.app.animationData = some demoAnimation ∧
    (sysReset midRunSys).1.overlay.processedAnimations = [dedupKey demoAnimation] ∧
    overlayEffect (some demoAnimation) demoPositions 0 (sysReset midRunSys).1.overlay =
      ((sysReset midRunSys).1.overlay, none) :=
  ⟨rfl, rfl, rfl, rfl, rfl, rfl, rfl, rfl, rfl⟩

/-- A concrete state whose mode is `error`. -/
def errorModeState : AppState :=
  { code := "x = 1", variablesMap := Val.vobj [], socket := true,
    executionState := Val.vstr "error", isStepMode := false, currentLine := none,
    variablePositions := [], animationData := none, iterationStack := Val.varr [] }

/-- Claim C2 counterexample: from mode `Error`, an inbound
`execution_completed` event moves the mode to `Idle`, so `Error` is not
terminal under inbound protocol events and `requestReset` is not the only
way out. -/
theorem claim2_counterexample :
    (handleEvent errorModeState (Event.execution_completed (Val.vobj []))).executionState =
      Val.vstr "idle" ∧ Val.vstr "idle" ≠ Val.vstr "error" := by
  refine ⟨rfl, ?_⟩
  intro h
  exact absurd (congrArg Val.jsToString h) (by simp [Val.jsToString])

/-- Claim C2 (amended): in mode `Error`, only `code_parsed` and
`execution_error` leave the mode at `Error`; `execution_started` and
`execution_step` move it to `Running`, `execution_completed` and the legacy
`execution_complete` move it to `Idle`, the legacy `execution_update` moves
it to the payload status (default `Idle`), and `requestReset` moves it to
`Idle`. -/
theorem claim2_error_mode_exits (s : AppState) (data : Val)
    (h : s.executionState = Val.vstr "error") :
    (handleEvent s (Event.code_parsed data)).executionState = Val.vstr "error" ∧
    (handleEvent s (Event.execution_error data)).executionState = Val.vstr "error" ∧
    (handleEvent s (Event.execution_started data)).executionState = Val.vstr "running" ∧
    (handleEvent s (Event.execution_step data)).executionState = Val.vstr "running" ∧
    (handleEvent s (Event.execution_completed data)).executionState = Val.vstr "idle" ∧
    (handleEvent s (Event.execution_complete data)).executionState = Val.vstr "idle" ∧
    (handleEvent s (Event.execution_update data)).executionState =
      jsOrUndef (data.get "status") (Val.vstr "idle") ∧
    (handleResetCode s).1.executionState = Val.vstr "idle" := by
  refine ⟨?_, rfl, ?_, ?_, rfl, rfl, rfl, rfl⟩
  · show (if !(jsFieldTruthy (data.get "success")) then
        { s with executionState := Val.vstr "error" } else s).executionState = _
    cases hb : !(jsFieldTruthy (data.get "success")) <;> simp [h]
  · show keepPausedElseRunning s.executionState = _
    rw [h]
    exact rfl
  · show keepPausedElseRunning s.executionState = _
    rw [h]
    exact rfl

/-- Claim C2 witness: the amended transitions evaluated at the concrete
error-mode state and an empty payload. -/
theorem claim2_witness :
    (handleEvent errorModeState (Event.code_parsed (Val.vobj []))).executionState =
      Val.vstr "error" ∧
    (handleEvent errorModeState (Event.execution_error (Val.vobj []))).executionState =
      Val.vstr "error" ∧
    (handleEvent errorModeState (Event.execution_started (Val.vobj []))).executionState =
      Val.vstr "running" ∧
    (handleEvent errorModeState (Event.execution_step (Val.vobj []))).executionState =
      Val.vstr "running" ∧
    (handleEvent errorModeState (Event.execution_completed (Val.vobj []))).executionState =
      Val.vstr "idle" ∧
    (handleEvent errorModeState (Event.execution_complete (Val.vobj []))).executionState =
      Val.vstr "idle" ∧
    (handleEvent errorModeState (Event.execution_update (Val.vobj []))).executionState =
      jsOrUndef ((Val.vobj []).get "status") (Val.vstr "idle") ∧
    (handleResetCode errorModeState).1.executionState = Val.vstr "idle" :=
  claim2_error_mode_exits errorModeState (Val.vobj []) rfl

/-- A concrete mid-run state with a live current line and armed step flag. -/
def legacyState : AppState :=
  { code := "x = 1", variablesMap := Val.vobj [], socket := true,
    executionState := Val.vstr "running", isStepMode := true,
    currentLine := some (Val.vint 5), variablePositions := [], animationData := none,
    iterationStack := Val.varr [] }

/-- A concrete legacy payload carrying only a variables snapshot. -/
def legacyPayload : Val := Val.vobj [("variables", Val.vobj [("global", Val.vobj [])])]

/-- Claim C3 counterexample: at the same state and payload, the legacy
`execution_complete` handler does not have the effect of
`execution_completed` (it leaves `currentLine` and the step flag untouched
where `execution_completed` clears them), and the legacy `execution_update`
handler does not have the semantics of `execution_step` (with no payload
status it forces `idle` where `execution_step` keeps `running`). -/
theorem claim3_counterexample :
    (handleEvent legacyState (Event.execution_complete legacyPayload)).currentLine =
      some (Val.vint 5) ∧
    (handleEvent legacyState (Event.execution_completed legacyPayload)).currentLine = none ∧
    (handleEvent legacyState (Event.execution_complete legacyPayload)).isStepMode = true ∧
    (handleEvent legacyState (Event.execution_completed legacyPayload)).isStepMode = false ∧
    (handleEvent legacyState (Event.execution_update legacyPayload)).executionState =
      Val.vstr "idle" ∧
    (handleEvent legacyState (Event.execution_step legacyPayload)).executionState =
      Val.vstr "running" :=
  ⟨rfl, rfl, rfl, rfl, rfl, rfl⟩

/-- Claim C3 (amended): for every state and payload, the legacy
`execution_complete` handler replaces the snapshot from `payload.variables`
(not `payload.result.variables`) and sets the mode to `Idle`, but leaves
`currentLine` and the step flag unchanged, whereas `execution_completed`
clears both; and the legacy `execution_update` handler replaces the snapshot
and sets the mode to `payload.status` (default `Idle`) while leaving
`currentLine`, the step flag, the animation descriptor and the iteration
stack unchanged, rather than following the keep-`Paused`-else-`Running` rule
of `execution_step`. -/
theorem claim3_legacy_alias_effects (s : AppState) (data : Val) :
    (handleEvent s (Event.execution_complete data)).executionState = Val.vstr "idle" ∧
    (handleEvent s (Event.execution_complete data)).variablesMap =
      jsOrUndef (data.get "variables") (Val.vobj []) ∧
    (handleEvent s (Event.execution_complete data)).currentLine = s.currentLine ∧
    (handleEvent s (Event.execution_complete data)).isStepMode = s.isStepMode ∧
    (handleEvent s (Event.execution_completed data)).executionState = Val.vstr "idle" ∧
    (handleEvent s (Event.execution_completed data)).variablesMap =
      jsOrUndef ((data.get "result").bind (fun r => r.get "variables")) (Val.vobj []) ∧
    (handleEvent s (Event.execution_completed data)).currentLine = none ∧
    (handleEvent s (Event.execution_completed data)).isStepMode = false ∧
    (handleEvent s (Event.execution_update data)).executionState =
      jsOrUndef (data.get "status") (Val.vstr "idle") ∧
    (handleEvent s (Event.execution_update data)).variablesMap =
      jsOrUndef (data.get "variables") (Val.vobj []) ∧
    (handleEvent s (Event.execution_update data)).currentLine = s.currentLine ∧
    (handleEvent s (Event.execution_update data)).isStepMode = s.isStepMode ∧
    (handleEvent s (Event.execution_update data)).animationData = s.animationData ∧
    (handleEvent s (Event.execution_update data)).iterationStack = s.iterationStack ∧
    (handleEvent s (Event.execution_step data)).executionState =
      keepPausedElseRunning s.executionState :=
  ⟨rfl, rfl, rfl, rfl, rfl, rfl, rfl, rfl, rfl, rfl, rfl, rfl, rfl, rfl, rfl⟩

/-- A stack on which a single-pointer match (frame 0) and a slice-range
match (frame 1) hit the same element. -/
def compositeStack : List IterFrame :=
  [{ level := 0, container := "arr", current_index := 2, multi_indices := [] },
   { level := 1, container := "arr", current_index := -1,
     multi_indices := [("arr", MultiSpec.slice_range 2 5 "lo" "hi")] }]

/-- Claim C4 counterexample: on `compositeStack`, element 2 of `arr` receives
both the single-pointer classification (from frame 0) and the slice-range
classification (from frame 1), and both are composited into the rendered
CSS classes — so it is not true that at most one classification is surfaced,
nor that the first matching frame suppresses the other scan. -/
theorem claim4_counterexample :
    (classifyElement compositeStack "arr" 2).iterationInfo.isSome = true ∧
    (classifyElement compositeStack "arr" 2).sliceRangeInfo.isSome = true ∧
    (classifyElement compositeStack "arr" 2).cssClasses =
      ["array-element", "current-iteration", "level-0", "slice-range", "slice-start"] := by
  decide

/-- Claim C4 (amended): within the `multiIndices` scan, multi-pointer and
slice-range classifications are mutually exclusive and the first frame in
stack order producing a match wins (a multi match in the head frame yields
exactly that match, a slice match in the head frame yields exactly that
match); but the single-pointer check is an independent scan, so a
single-pointer match may be surfaced together with (composited with) a
slice-range match from another frame, as the counterexample shows. -/
theorem claim4_scan_first_match_exclusive :
    (∀ (stack : List IterFrame) (varName : String) (index : Nat),
        (scanMultiSlice stack varName index).1.isSome = true →
        (scanMultiSlice stack varName index).2 = none) ∧
    (∀ (context : IterFrame) (rest : List IterFrame) (varName : String) (index : Nat)
        (m : MultiIndexInfo),
        frameMatchMulti context varName index = some m →
        scanMultiSlice (context :: rest) varName index = (some m, none)) ∧
    (∀ (context : IterFrame) (rest : List IterFrame) (varName : String) (index : Nat)
        (sl : SliceRangeInfo),
        frameMatchMulti context varName index = none →
        frameMatchSlice context varName index = some sl →
        scanMultiSlice (context :: rest) varName index = (none, some sl)) := by
  refine ⟨?_, ?_, ?_⟩
  · intro stack varName index
    induction stack with
    | nil => simp [scanMultiSlice]
    | cons context rest ih =>
        simp only [scanMultiSlice]
        cases hm : frameMatchMulti context varName index with
        | some m => simp
        | none =>
            cases hs : frameMatchSlice context varName index with
            | some sl => simp
            | none => simpa using ih
  · intro context rest varName index m hm
    simp [scanMultiSlice, hm]
  · intro context rest varName index sl hm hs
    simp [scanMultiSlice, hm, hs]

/-- Claim C4 witness: the first-frame-wins conclusions applied at concrete
frames (a multi-pointer frame and a slice frame at the head of a stack). -/
theorem claim4_witness :
    scanMultiSlice
      [{ level := 0, container := "arr", current_index := -1,
         multi_indices := [("arr", MultiSpec.multi_index [1, 4] ["i", "j"])] }]
      "arr" 4 =
      (some { level := 0, pointerType := 1, pointerVar := some "j", totalPointers := 2 },
       none) ∧
    scanMultiSlice
      [{ level := 1, container := "arr", current_index := -1,
         multi_indices := [("arr", MultiSpec.slice_range 2 5 "lo" "hi")] }]
      "arr" 4 =
      (none,
       some { level := 1, startVar := "lo", endVar := "hi", startIndex := 2, endIndex := 5,
              isStartBoundary := false, isEndBoundary := true }) :=
  ⟨claim4_scan_first_match_exclusive.2.1 _ [] "arr" 4 _ (by decide),
   claim4_scan_first_match_exclusive.2.2 _ [] "arr" 4 _ (by decide) (by decide)⟩

/-- The single frame of the spec's single-pointer example. -/
def singleFrame : IterFrame :=
  { level := 0, container := "arr", current_index := 2, multi_indices := [] }

/-- The spec's single-pointer example stack. -/
def singleStack : List IterFrame := [singleFrame]

/-- Claim C6 counterexample: a frame whose `currentIndex` is negative can
still classify an element — the multi-pointer / slice scan never consults
`current_index`, so a frame with `current_index = -1` carrying a
`multi_index` spec classifies index 1 of `arr`, contradicting the claim that
such a frame classifies no index of any variable. -/
theorem claim6_counterexample :
    (0 >
      ({ level := 0, container := "arr", current_index := -1,
         multi_indices := [("arr", MultiSpec.multi_index [1] ["i"])] } : IterFrame).current_index) ∧
    (classifyElement
      [{ level := 0, container := "arr", current_index := -1,
         multi_indices := [("arr", MultiSpec.multi_index [1] ["i"])] }] "arr" 1).multiIndexInfo.isSome =
      true ∧
    (classifyElement
      [{ level := 0, container := "arr", current_index := -1,
         multi_indices := [("arr", MultiSpec.multi_index [1] ["i"])] }] "arr" 1).cssClasses =
      ["array-element", "current-iteration", "level-0", "pointer-0"] := by
  decide

/-- Claim C6 (amended): on the stack
`[{level:0, container:"arr", currentIndex:2}]` and a variable `arr` of
length 5, exactly index 2 is classified current-iteration at level 0 and all
other indices are unclassified; and a frame with `currentIndex < 0` never
produces the single-pointer classification (the single-pointer `find`
requires `currentIndex >= 0`), though its `multiIndices` may still classify
indices through the multi-pointer / slice scan. -/
theorem claim6_single_pointer_example :
    ((classifyElement singleStack "arr" 2).isCurrentIteration = true ∧
     (classifyElement singleStack "arr" 2).iterationLevel = 0 ∧
     (classifyElement singleStack "arr" 2).cssClasses =
       ["array-element", "current-iteration", "level-0"] ∧
     (∀ index : Nat, index < 5 → index ≠ 2 →
        (classifyElement singleStack "arr" index).isCurrentIteration = false ∧
        (classifyElement singleStack "arr" index).isSliceRange = false ∧
        (classifyElement singleStack "arr" index).cssClasses = ["array-element"])) ∧
    (∀ (stack : List IterFrame) (varName : String) (index : Nat) (f : IterFrame),
        findIterationInfo stack varName index = some f → 0 ≤ f.current_index) := by
  refine ⟨by decide, ?_⟩
  intro stack varName index f hf
  have hp := List.find?_some hf
  simp only [Bool.and_eq_true, decide_eq_true_eq] at hp
  exact hp.2

/-- Claim C6 witness: the bounded-unclassified conclusion at index 0 and the
non-negativity conclusion at the concrete example stack. -/
theorem claim6_witness :
    (classifyElement singleStack "arr" 0).cssClasses = ["array-element"] ∧
    0 ≤ singleFrame.current_index :=
  ⟨(claim6_single_pointer_example.1.2.2.2 0 (by decide) (by decide)).2.2,
   claim6_single_pointer_example.2 singleStack "arr" 2 singleFrame (by decide)⟩

/-- A frame carrying the spec's slice example `{startIndex:2, endIndex:5}`
on variable `nums` (traversal index not started). -/
def sliceFrame : IterFrame :=
  { level := 0, container := "nums", current_index := -1,
    multi_indices := [("nums", MultiSpec.slice_range 2 5 "lo" "hi")] }

/-- The spec's slice example stack. -/
def sliceStack : List IterFrame := [sliceFrame]

/-- Claim C7: on a 6-element array with slice `{startIndex:2, endIndex:5}`,
exactly indices 2, 3, 4 are classified slice-range; index 2 carries
`isStartBoundary`, index 4 carries `isEndBoundary`, indices 0, 1 and 5 are
unclassified; and in general a frame whose spec for the variable is
`slice_range s e` classifies index `i` exactly when `s <= i < e`, with the
boundary flags at `s` and `e - 1`. -/
theorem claim7_slice_range :
    ((classifyElement sliceStack "nums" 2).sliceRangeInfo =
       some { level := 0, startVar := "lo", endVar := "hi", startIndex := 2, endIndex := 5,
              isStartBoundary := true, isEndBoundary := false } ∧
     (classifyElement sliceStack "nums" 2).cssClasses =
       ["array-element", "slice-range", "slice-start"] ∧
     (classifyElement sliceStack "nums" 3).sliceRangeInfo =
       some { level := 0, startVar := "lo", endVar := "hi", startIndex := 2, endIndex := 5,
              isStartBoundary := false, isEndBoundary := false } ∧
     (classifyElement sliceStack "nums" 3).cssClasses = ["array-element", "slice-range"] ∧
     (classifyElement sliceStack "nums" 4).sliceRangeInfo =
       some { level := 0, startVar := "lo", endVar := "hi", startIndex := 2, endIndex := 5,
              isStartBoundary := false, isEndBoundary := true } ∧
     (classifyElement sliceStack "nums" 4).cssClasses =
       ["array-element", "slice-range", "slice-end"] ∧
     (∀ index : Nat, index < 6 → (index < 2 ∨ index = 5) →
        (classifyElement sliceStack "nums" index).isSliceRange = false ∧
        (classifyElement sliceStack "nums" index).cssClasses = ["array-element"])) ∧
    (∀ (context : IterFrame) (varName : String) (index : Nat) (s e : Int)
        (sv ev : String),
        context.multi_indices.lookup varName = some (MultiSpec.slice_range s e sv ev) →
        frameMatchSlice context varName index =
          (if s ≤ (index : Int) ∧ (index : Int) < e then
             some { level := context.level, startVar := sv, endVar := ev, startIndex := s,
                    endIndex := e, isStartBoundary := ((index : Int) == s),
                    isEndBoundary := ((index : Int) == e - 1) }
           else none)) := by
  refine ⟨by decide, ?_⟩
  intro context varName index s e sv ev hlookup
  simp [frameMatchSlice, hlookup]

/-- Claim C7 witness: the general slice-membership conclusion evaluated at
the concrete slice frame and index 3. -/
theorem claim7_witness :
    frameMatchSlice sliceFrame "nums" 3 =
      (if (2 : Int) ≤ (3 : Nat) ∧ ((3 : Nat) : Int) < 5 then
         some { level := sliceFrame.level, startVar := "lo", endVar := "hi", startIndex := 2,
                endIndex := 5, isStartBoundary := (((3 : Nat) : Int) == 2),
                isEndBoundary := (((3 : Nat) : Int) == 5 - 1) }
       else none) :=
  claim7_slice_range.2 sliceFrame "nums" 3 2 5 "lo" "hi" (by decide)

/-- Claim C5: submitting the identical animation event twice within its
lifetime (no intervening removal or null descriptor, so the dedup set is not
cleared in between) yields exactly one active entry: the first submission
appends one entry, the second finds the dedup key already processed and is a
no-op (state unchanged, no removal scheduled). -/
theorem claim5_dedup_single_entry (e : Val) (pos : List (String × Pos)) (o : OverlayState)
    (t1 t2 : Nat) (sp tp : Pos)
    (hactive : o.activeAnimations = [])
    (hfresh : o.processedAnimations.contains (dedupKey e) = false)
    (hs : pos.lookup (sourceVarId e) = some sp)
    (ht : pos.lookup (targetVarId e) = some tp) :
    (overlayEffect (some e) pos t1 o).1.activeAnimations.length = 1 ∧
    overlayEffect (some e) pos t2 (overlayEffect (some e) pos t1 o).1 =
      ((overlayEffect (some e) pos t1 o).1, none) := by
  have h1 : overlayEffect (some e) pos t1 o =
      ({ activeAnimations := o.activeAnimations ++
           [{ id := o.animationIdRef,
              value := e.get "source_value",
              startX := sp.absoluteX + sp.width / 2,
              startY := sp.absoluteY + sp.height / 2,
              endX := tp.absoluteX + tp.width / 2,
              endY := tp.absoluteY + tp.height / 2,
              operation := e.get "operation",
              animationType := e.get "animation_type",
              timestamp := t1 }],
         animationIdRef := o.animationIdRef + 1,
         processedAnimations := o.processedAnimations ++ [dedupKey e] }, some o.animationIdRef) := by
    simp [overlayEffect, hfresh, hs, ht]
  rw [h1]
  constructor
  · simp [hactive]
  · simp [overlayEffect, dedup_contains_append_self]

/-- Claim C5 witness: the two submissions evaluated at the concrete event,
positions and an initially empty overlay state. -/
theorem claim5_witness :
    (overlayEffect (some demoAnimation) demoPositions 3
        { activeAnimations := [], animationIdRef := 0,
          processedAnimations := [] }).1.activeAnimations.length = 1 ∧
    overlayEffect (some demoAnimation) demoPositions 9
        (overlayEffect (some demoAnimation) demoPositions 3
          { activeAnimations := [], animationIdRef := 0, processedAnimations := [] }).1 =
      ((overlayEffect (some demoAnimation) demoPositions 3
          { activeAnimations := [], animationIdRef := 0, processedAnimations := [] }).1,
       none) :=
  claim5_dedup_single_entry demoAnimation demoPositions
    { activeAnimations := [], animationIdRef := 0, processedAnimations := [] }
    3 9 demoPos demoPos rfl rfl rfl rfl

/-- A concrete idle state with a non-empty source text and no socket. -/
def disconnectedIdleState : AppState :=
  { code := "x = 1", variablesMap := Val.vobj [], socket := false,
    executionState := Val.vstr "idle", isStepMode := false, currentLine := none,
    variablePositions := [], animationData := none, iterationStack := Val.varr [] }

/-- Claim C8 counterexample: with a non-empty source and an absent
connection, `requestRun` (`handleRunCode`) is not a no-op — it never checks
the socket: it still moves the mode to `running` and issues the HTTP parse
request. -/
theorem claim8_counterexample :
    disconnectedIdleState.socket = false ∧
    (handleRunCode disconnectedIdleState).1.executionState = Val.vstr "running" ∧
    (handleRunCode disconnectedIdleState).2 = [Emission.httpParse "x = 1" ""] :=
  ⟨rfl, rfl, rfl⟩

/-- Claim C8 (amended): `requestStep` (`handleStepCode`) is a no-op (state
unchanged, nothing emitted) on empty or whitespace-only source text and on
an absent connection; `requestRun` (`handleRunCode`) is a no-op only on
empty or whitespace-only source text — it consults the HTTP channel, not the
socket, so an absent connection does not stop it. -/
theorem claim8_guards (s : AppState) :
    (jsTrim s.code = "" → handleRunCode s = (s, []) ∧ handleStepCode s = (s, [])) ∧
    (s.socket = false → handleStepCode s = (s, [])) := by
  constructor
  · intro h
    constructor
    · simp [handleRunCode, h]
    · simp [handleStepCode, h]
  · intro h
    by_cases hc : jsTrim s.code = ""
    · simp [handleStepCode, hc]
    · simp [handleStepCode, hc, h]

/-- Claim C8 witness: the guards evaluated at a whitespace-only source and
at the concrete disconnected state. -/
theorem claim8_witness :
    (handleRunCode { disconnectedIdleState with code := "   " } =
       ({ disconnectedIdleState with code := "   " }, []) ∧
     handleStepCode { disconnectedIdleState with code := "   " } =
       ({ disconnectedIdleState with code := "   " }, [])) ∧
    handleStepCode disconnectedIdleState = (disconnectedIdleState, []) :=
  ⟨(claim8_guards { disconnectedIdleState with code := "   " }).1 rfl,
   (claim8_guards disconnectedIdleState).2 rfl⟩

/-- Claim C9: the overlay resolves positions only under the identifiers
`global.` + `source_variable` and `global.` + `target_variable` — its result
depends on the position map only through those two keys — and when either
lookup misses (for example because the variables are rendered only under a
non-global scope) no animation entry is produced and no removal is
scheduled (the event is logged and skipped). -/
theorem claim9_global_scope_lookup :
    (∀ (e : Val) (pos : List (String × Pos)) (t : Nat) (o : OverlayState),
        pos.lookup (sourceVarId e) = none ∨ pos.lookup (targetVarId e) = none →
        (overlayEffect (some e) pos t o).1.activeAnimations = o.activeAnimations ∧
        (overlayEffect (some e) pos t o).2 = none) ∧
    (∀ (e : Val) (pos1 pos2 : List (String × Pos)) (t : Nat) (o : OverlayState),
        pos1.lookup (sourceVarId e) = pos2.lookup (sourceVarId e) →
        pos1.lookup (targetVarId e) = pos2.lookup (targetVarId e) →
        overlayEffect (some e) pos1 t o = overlayEffect (some e) pos2 t o) := by
  constructor
  · intro e pos t o hmiss
    by_cases hseen : o.processedAnimations.contains (dedupKey e)
    · simp [overlayEffect, hseen]
    · rcases hmiss with hm | hm
      · cases htgt : pos.lookup (targetVarId e) <;>
          simp [overlayEffect, hseen, hm, htgt]
      · cases hsrc : pos.lookup (sourceVarId e) <;>
          simp [overlayEffect, hseen, hm, hsrc]
  · intro e pos1 pos2 t o h1 h2
    simp only [overlayEffect, h1, h2]

/-- Claim C9 witness: the skip conclusion evaluated at the concrete event
and a position map that registers its variables only under the local scope,
and the dependency conclusion at two maps agreeing on the two global
identifiers. -/
theorem claim9_witness :
    ((overlayEffect (some demoAnimation) [("local.i", demoPos), ("local.arr", demoPos)] 0
        { activeAnimations := [], animationIdRef := 0,
          processedAnimations := [] }).1.activeAnimations = [] ∧
     (overlayEffect (some demoAnimation) [("local.i", demoPos), ("local.arr", demoPos)] 0
        { activeAnimations := [], animationIdRef := 0,
          processedAnimations := [] }).2 = none) ∧
    overlayEffect (some demoAnimation) demoPositions 0
        { activeAnimations := [], animationIdRef := 0, processedAnimations := [] } =
      overlayEffect (some demoAnimation) (("other.z", demoPos) :: demoPositions) 0
        { activeAnimations := [], animationIdRef := 0, processedAnimations := [] } :=
  ⟨claim9_global_scope_lookup.1 demoAnimation [("local.i", demoPos), ("local.arr", demoPos)] 0
      { activeAnimations := [], animationIdRef := 0, processedAnimations := [] }
      (Or.inl rfl),
   claim9_global_scope_lookup.2 demoAnimation demoPositions
      (("other.z", demoPos) :: demoPositions) 0
      { activeAnimations := [], animationIdRef := 0, processedAnimations := [] } rfl rfl⟩

/-- Claim C10: whenever a completion callback fires, the removal filters the
entry out, the owner sets the animation descriptor to null, and the prop
change re-runs the overlay effect whose null branch clears the entire dedup
set — so afterwards no dedup key whatsoever is still marked as seen, and
every previously-seen key is replayable without a session reset. -/
theorem claim10_completion_clears_dedup (s : SysState) (animationId : Nat)
    (h : s.app.animationData.isSome = true) :
    (sysAnimationComplete animationId s).app.animationData = none ∧
    (sysAnimationComplete animationId s).overlay.processedAnimations = [] ∧
    (sysAnimationComplete animationId s).overlay.activeAnimations =
      s.overlay.activeAnimations.filter (fun anim => anim.id != animationId) ∧
    (∀ e : Val,
        (sysAnimationComplete animationId s).overlay.processedAnimations.contains
          (dedupKey e) = false) := by
  refine ⟨?_, ?_, ?_, ?_⟩ <;>
    simp [sysAnimationComplete, h, overlayEffect, overlayRemove, handleAnimationComplete,
          List.contains]

/-- Claim C10 witness: a completion firing on the concrete mid-run state
(whose dedup set holds the key of the live animation) leaves an empty dedup
set and a null descriptor. -/
theorem claim10_witness :
    (sysAnimationComplete 0 midRunSys).app.animationData = none ∧
    (sysAnimationComplete 0 midRunSys).overlay.processedAnimations = [] ∧
    (sysAnimationComplete 0 midRunSys).overlay.activeAnimations =
      midRunSys.overlay.activeAnimations.filter (fun anim => anim.id != 0) ∧
    (∀ e : Val,
        (sysAnimationComplete 0 midRunSys).overlay.processedAnimations.contains
          (dedupKey e) = false) :=
  claim10_completion_clears_dedup midRunSys 0 rfl
